import Mathlib

/-!
Verification of Sysware_status.py (the status bot of this repository).

The module keeps a mutable dictionary current_status with exactly the keys
"admin", "usermode" and "server", each holding a status value, a color glyph
and a last-update timestamp.  We model that dictionary as the structure
Store indexed by the enumeration Component; Component.key recovers the
Python dictionary key.  Timestamps and the wall clock are modelled as the
strings the program stores (datetime.now().strftime produces a string).

The network and the chat platform are modelled as explicit inputs:
FetchOutcome stands for the possible outcomes of the HTTP GET plus JSON
parse, and PubEnv for the channel lookup, message fetch and message edit
outcomes seen by update_status_message.  Platform calls made by the
publisher are reported as an explicit action list, and print statements as
explicit log lists, so that "performs no call" and "logs a warning" are
statable.
-/

inductive Component : Type
  | admin
  | usermode
  | server
deriving DecidableEq

def Component.key : Component → String
  | Component.admin => "admin"
  | Component.usermode => "usermode"
  | Component.server => "server"

/-- One value of the current_status dictionary: status value, optional
last-update timestamp, and color glyph. -/
structure Entry where
  status : String
  last_update : Option String
  color : String
deriving DecidableEq

/-- The current_status dictionary: one Entry per component. -/
structure Store where
  admin : Entry
  usermode : Entry
  server : Entry
deriving DecidableEq

def Store.get (st : Store) : Component → Entry
  | Component.admin => st.admin
  | Component.usermode => st.usermode
  | Component.server => st.server

def Store.set (st : Store) : Component → Entry → Store
  | Component.admin, e => { st with admin := e }
  | Component.usermode, e => { st with usermode := e }
  | Component.server, e => { st with server := e }

/-- Initial value of the module-level mutable dictionary current_status
(lines 23-27 of the source): every component Offline with the red glyph and
no timestamp. -/
def current_status : Store :=
  { admin := { status := "Offline", last_update := none, color := "🔴" }
    usermode := { status := "Offline", last_update := none, color := "🔴" }
    server := { status := "Offline", last_update := none, color := "🔴" } }

/-- The STATUS_OPTIONS dictionary (lines 33-50): component name to its
allowed value-to-glyph dictionary, as an association list.  Looking up an
unknown component name yields none, matching STATUS_OPTIONS.get(category)
failing. -/
def STATUS_OPTIONS (category : String) : Option (List (String × String)) :=
  if category = "admin" then
    some [("Online", "🟢"), ("Busy", "🟡"), ("Sleeping", "🟠"), ("Offline", "🔴")]
  else if category = "usermode" then
    some [("Online", "🟢"), ("Updating", "🟡"), ("Offline", "🔴")]
  else if category = "server" then
    some [("Online", "🟢"), ("Medium", "🟡"), ("Offline", "🔴")]
  else
    none

/-- get_status_color (lines 52-53): STATUS_OPTIONS.get(category, empty
dict).get(status, white circle). -/
def get_status_color (category status : String) : String :=
  (List.lookup status ((STATUS_OPTIONS category).getD [])).getD "⚪"

/-- The membership test of line 120, new_status in STATUS_OPTIONS.get(component,
empty dict): key membership in the allowed dictionary of the component. -/
def in_status_options (category status : String) : Bool :=
  (List.lookup status ((STATUS_OPTIONS category).getD [])).isSome

/-- A value of the parsed JSON object, classified by how the dictionary
membership test of line 120 treats it in Python: a string may be a key of
the options dictionary; a number, boolean or null is hashable but is never
a key of these string-keyed dictionaries, so the test is False; an array or
object is unhashable, so the test raises TypeError (caught by the except
clause of line 131). -/
inductive JVal : Type
  | str (s : String)
  | prim
  | coll
deriving DecidableEq

/-- The parsed JSON object: a string-keyed dictionary, as an association
list. -/
abbrev JObj := List (String × JVal)

/-- Print statements of fetch_status_from_github, as abstract log events. -/
inductive FetchLog : Type
  | fetched
  | updated (c : Component) (v : String)
  | failedHTTP
  | errorFetching
deriving DecidableEq

/-- One iteration of the update loop of lines 117-126 for one component:
if the component key is present in the data and its value passes the
membership test and differs from the stored status, produce the new entry
(value, glyph from the table, fresh timestamp) and the Updated log;
otherwise keep the entry.  An unhashable value makes the membership test
raise, modelled as the error result. -/
def stepEntry (now : String) (data : JObj) (component : Component) (e : Entry) :
    Except Unit (Entry × List FetchLog) :=
  match data.lookup component.key with
  | none => Except.ok (e, [])
  | some new_status =>
    match new_status with
    | JVal.coll => Except.error ()
    | JVal.prim => Except.ok (e, [])
    | JVal.str v =>
      if in_status_options component.key v then
        if e.status ≠ v then
          Except.ok ({ status := v, color := get_status_color component.key v,
                       last_update := some now }, [FetchLog.updated component v])
        else
          Except.ok (e, [])
      else
        Except.ok (e, [])

/-- The loop of line 117 over the literal component list; threads the store
through the iterations, accumulates Updated logs, and aborts (returning the
partially updated store and the false flag) when an iteration raises. -/
def fetchLoop (now : String) (data : JObj) :
    List Component → Store → Store × List FetchLog × Bool
  | [], st => (st, [], true)
  | component :: rest, st =>
    match stepEntry now data component (st.get component) with
    | Except.error _ => (st, [], false)
    | Except.ok (e, lg) =>
      let r := fetchLoop now data rest (st.set component e)
      (r.1, lg ++ r.2.1, r.2.2)

/-- The literal list of line 117. -/
def fetch_components : List Component :=
  [Component.admin, Component.usermode, Component.server]

/-- Outcome of the HTTP GET and JSON parse of lines 110-113, as seen by the
rest of the function: ok means response.status was 200 and the body parsed
as a JSON object; badStatus means response.status was not 200; raised means
an exception before the update loop (network failure, unparseable body). -/
inductive FetchOutcome : Type
  | ok (data : JObj)
  | badStatus
  | raised
deriving DecidableEq

/-- Result of fetch_status_from_github: the returned boolean, the (possibly
mutated) store, and the prints made. -/
structure FetchResult where
  ok : Bool
  store : Store
  logs : List FetchLog
deriving DecidableEq

/-- fetch_status_from_github (lines 107-133).  On the ok outcome the update
loop runs; if an iteration raises, the exception is caught by the except
clause of line 131, the error print is made and False is returned, with the
updates already made kept (the store is the mutable global).  On a non-200
status or an earlier exception the store is untouched and False is
returned. -/
def fetch_status_from_github (outcome : FetchOutcome) (now : String) (st : Store) :
    FetchResult :=
  match outcome with
  | FetchOutcome.ok data =>
    let r := fetchLoop now data fetch_components st
    if r.2.2 then
      { ok := true, store := r.1, logs := FetchLog.fetched :: r.2.1 }
    else
      { ok := false, store := r.1,
        logs := FetchLog.fetched :: r.2.1 ++ [FetchLog.errorFetching] }
  | FetchOutcome.badStatus =>
    { ok := false, store := st, logs := [FetchLog.failedHTTP] }
  | FetchOutcome.raised =>
    { ok := false, store := st, logs := [FetchLog.errorFetching] }

/-- The stores reachable from the initial store by any sequence of fetch
calls with arbitrary network outcomes and clock readings. -/
inductive Reachable : Store → Prop
  | init : Reachable current_status
  | step (outcome : FetchOutcome) (now : String) {st : Store} :
      Reachable st → Reachable (fetch_status_from_github outcome now st).store

/-- The embed built by create_status_embed, with the parts the source sets:
title, description, color, timestamp, the added fields (name, value,
inline) in order, and the footer text. -/
structure Embed where
  title : String
  description : String
  color : Nat
  timestamp : String
  fields : List (String × String × Bool)
  footer : String
deriving DecidableEq

/-- Rendering of a last_update value by the expression x or Never of lines
68, 76 and 84: None and the empty string are falsy in Python. -/
def render_last_update : Option String → String
  | none => "Never"
  | some s => if s = "" then "Never" else s

def all_online (st : Store) : Bool :=
  [st.admin, st.usermode, st.server].all (fun s => (["Online"]).contains s.status)

def any_offline (st : Store) : Bool :=
  [st.admin, st.usermode, st.server].any (fun s => s.status == "Offline")

/-- create_status_embed (lines 55-105).  The now argument stands for the
datetime.now() call of line 61; the color first assigned at line 60 is
overwritten at line 102 before the embed is returned, so only the health
color appears in the result. -/
def create_status_embed (now : String) (st : Store) : Embed :=
  let health :=
    if all_online st then ("✅ All Systems Operational", 0x57F287)
    else if any_offline st then ("🔴 Critical Issues Detected", 0xED4245)
    else ("⚠️ Some Systems Degraded", 0xFEE75C)
  { title := "🖥️ Sysware System Status"
    description := "Real-time system component status monitoring"
    color := health.2
    timestamp := now
    fields :=
      [ (st.admin.color ++ " Admin Status",
         "**Status:** " ++ st.admin.status ++ "\n**Last Update:** " ++
           render_last_update st.admin.last_update, false)
      , (st.usermode.color ++ " User Mode",
         "**Status:** " ++ st.usermode.status ++ "\n**Last Update:** " ++
           render_last_update st.usermode.last_update, false)
      , (st.server.color ++ " Server",
         "**Status:** " ++ st.server.status ++ "\n**Last Update:** " ++
           render_last_update st.server.last_update, false) ]
    footer := health.1 ++ " • Auto-updates every 30s" }

/-- Outcome of channel.fetch_message at line 150: the message exists, the
platform reports NotFound, or some other exception is raised. -/
inductive MsgFetch : Type
  | found
  | notFound
  | raised
deriving DecidableEq

/-- Environment of one update_status_message call: whether
bot.get_channel(CHANNEL_ID) returns a channel, the current value of the
status_message_id global, and the platform outcomes of the message fetch
and of the edit. -/
structure PubEnv where
  channelFound : Bool
  status_message_id : Nat
  fetchOutcome : MsgFetch
  editRaises : Bool
deriving DecidableEq

/-- Platform message calls the publisher paths can make. -/
inductive PubAction : Type
  | fetchMessage (id : Nat)
  | editMessage (id : Nat) (embed : Embed)
  | createMessage (embed : Embed)
deriving DecidableEq

/-- Print statements of update_status_message and of the setstatus command. -/
inductive PubLog : Type
  | channelNotFound
  | updatedMessage (id : Nat)
  | messageNotFound (id : Nat)
  | errorEditing
  | noMessageId
  | setupConfirmation (id : Nat)
deriving DecidableEq

/-- update_status_message (lines 135-160).  Returns the (unchanged) value
of the status_message_id global, the platform message calls made, and the
prints made.  The guard of line 147, id and id different from 0, is the
test id different from 0 for an integer id.  A non-NotFound exception from
the fetch or from the edit is caught by the inner generic except clause of
line 155. -/
def update_status_message (env : PubEnv) (now : String) (st : Store) :
    Nat × List PubAction × List PubLog :=
  if env.channelFound = false then
    (env.status_message_id, [], [PubLog.channelNotFound])
  else
    let embed := create_status_embed now st
    if env.status_message_id ≠ 0 then
      match env.fetchOutcome with
      | MsgFetch.found =>
        if env.editRaises then
          (env.status_message_id,
           [PubAction.fetchMessage env.status_message_id,
            PubAction.editMessage env.status_message_id embed],
           [PubLog.errorEditing])
        else
          (env.status_message_id,
           [PubAction.fetchMessage env.status_message_id,
            PubAction.editMessage env.status_message_id embed],
           [PubLog.updatedMessage env.status_message_id])
      | MsgFetch.notFound =>
        (env.status_message_id, [PubAction.fetchMessage env.status_message_id],
         [PubLog.messageNotFound env.status_message_id])
      | MsgFetch.raised =>
        (env.status_message_id, [PubAction.fetchMessage env.status_message_id],
         [PubLog.errorEditing])
    else
      (env.status_message_id, [], [PubLog.noMessageId])

/-- The setstatus command (lines 186-196): sends a brand-new message with
the rendered embed, stores the platform-assigned message id in the global,
and sends the confirmation.  This is the only path that creates a message. -/
def create_initial_status (newId : Nat) (now : String) (st : Store) :
    Nat × List PubAction × List PubLog :=
  (newId, [PubAction.createMessage (create_status_embed now st)],
   [PubLog.setupConfirmation newId])

/-- The per-entry invariant: the stored status is an allowed key for the
component, and the stored glyph is the table glyph of the stored status. -/
def EntryInv (c : Component) (e : Entry) : Prop :=
  in_status_options c.key e.status = true ∧ e.color = get_status_color c.key e.status

/-- The key set of the STATUS_OPTIONS table of a component. -/
def status_option_keys (category : String) : List String :=
  ((STATUS_OPTIONS category).getD []).map Prod.fst

/-! Concrete inputs used in the claim-level theorems below. -/

/-- A parsed object whose admin value is an array or object (unhashable) and
whose server value is a valid differing status. -/
def dataCollServer : JObj := [("admin", JVal.coll), ("server", JVal.str "Online")]

/-- A parsed object whose admin value is a valid differing status and whose
usermode value is an array or object (unhashable). -/
def dataOnlineColl : JObj := [("admin", JVal.str "Online"), ("usermode", JVal.coll)]

/-- A parsed object carrying one valid differing admin status. -/
def dataBusyAdmin : JObj := [("admin", JVal.str "Busy")]

/-- A parsed object whose server value is a string outside the allowed set. -/
def dataUnknownValue : JObj := [("server", JVal.str "Turbo")]

def entryOnline : Entry :=
  { status := "Online", last_update := some "2026-10-12 09:00:00", color := "🟢" }

def storeAllOnline : Store :=
  { admin := entryOnline, usermode := entryOnline, server := entryOnline }

def storeOneOffline : Store :=
  { admin := { status := "Offline", last_update := none, color := "🔴" }
    usermode := entryOnline
    server := entryOnline }

def storeOneBusy : Store :=
  { admin := { status := "Busy", last_update := some "2026-10-12 09:00:00", color := "🟡" }
    usermode := entryOnline
    server := entryOnline }

/-- Publisher environment where the channel lookup fails and no message id
is configured. -/
def envNoChannel : PubEnv :=
  { channelFound := false, status_message_id := 0, fetchOutcome := MsgFetch.found,
    editRaises := false }

/-- Publisher environment with a channel but no configured message id. -/
def envUnconfigured : PubEnv :=
  { channelFound := true, status_message_id := 0, fetchOutcome := MsgFetch.found,
    editRaises := false }

/-- Publisher environment whose configured message id does not resolve. -/
def envMissingMessage : PubEnv :=
  { channelFound := true, status_message_id := 42, fetchOutcome := MsgFetch.notFound,
    editRaises := false }

/-! Helper lemmas about the store and the update loop. -/

theorem Store.get_set_same (st : Store) (c : Component) (e : Entry) :
    (st.set c e).get c = e := by
  cases c <;> rfl

theorem Store.get_set_ne (st : Store) {c c' : Component} (e : Entry) (h : c' ≠ c) :
    (st.set c e).get c' = st.get c' := by
  cases c <;> cases c' <;> first | rfl | exact absurd rfl h

theorem Store.set_get (st : Store) (c : Component) :
    st.set c (st.get c) = st := by
  cases c <;> rfl

theorem stepEntry_error_iff (now : String) (data : JObj) (c : Component) (e : Entry) :
    stepEntry now data c e = Except.error () ↔ data.lookup c.key = some JVal.coll := by
  cases h : data.lookup c.key with
  | none => simp [stepEntry, h]
  | some v =>
    cases v with
    | str s =>
      by_cases hm : in_status_options c.key s
      · by_cases hs : e.status ≠ s <;> simp [stepEntry, h, hm, hs]
      · simp [stepEntry, h, hm]
    | prim => simp [stepEntry, h]
    | coll => simp [stepEntry, h]

theorem stepEntry_stable {now₁ : String} {data : JObj} {c : Component} {e e' : Entry}
    {lg : List FetchLog} (h : stepEntry now₁ data c e = Except.ok (e', lg)) (now₂ : String) :
    stepEntry now₂ data c e' = Except.ok (e', []) := by
  cases hl : data.lookup c.key with
  | none =>
    simp [stepEntry, hl] at h
    simp [stepEntry, hl, h.1]
  | some v =>
    cases v with
    | str s =>
      by_cases hm : in_status_options c.key s
      · by_cases hs : e.status ≠ s
        · simp [stepEntry, hl, hm, hs] at h
          simp [stepEntry, hl, hm, ← h.1]
        · simp [stepEntry, hl, hm, hs] at h
          simp [stepEntry, hl, hm, h.1 ▸ hs]
      · simp [stepEntry, hl, hm] at h
        simp [stepEntry, hl, hm, h.1]
    | prim =>
      simp [stepEntry, hl] at h
      simp [stepEntry, hl, h.1]
    | coll => simp [stepEntry, hl] at h

theorem fetchLoop_get_id {now : String} {data : JObj} {c : Component}
    (hid : ∀ e, stepEntry now data c e = Except.ok (e, [])) :
    ∀ (l : List Component) (st : Store),
      ((fetchLoop now data l st).1).get c = st.get c := by
  intro l
  induction l with
  | nil => intro st; rfl
  | cons c' rest ih =>
    intro st
    by_cases hc : c' = c
    · subst hc
      simp only [fetchLoop, hid (st.get c')]
      rw [Store.set_get]
      exact ih st
    · cases hs : stepEntry now data c' (st.get c') with
      | error u =>
        cases u
        simp only [fetchLoop, hs]
      | ok p =>
        obtain ⟨e, lg⟩ := p
        simp only [fetchLoop, hs]
        rw [ih (st.set c' e), Store.get_set_ne st e (Ne.symm hc)]

theorem fetchLoop_done_iff {now : String} {data : JObj} :
    ∀ (l : List Component) (st : Store),
      (fetchLoop now data l st).2.2 = true ↔
        ∀ c ∈ l, data.lookup c.key ≠ some JVal.coll := by
  intro l
  induction l with
  | nil => intro st; simp [fetchLoop]
  | cons c' rest ih =>
    intro st
    cases hs : stepEntry now data c' (st.get c') with
    | error u =>
      cases u
      have hcoll := (stepEntry_error_iff now data c' (st.get c')).mp hs
      simp [fetchLoop, hs, hcoll]
    | ok p =>
      obtain ⟨e, lg⟩ := p
      have hne : data.lookup c'.key ≠ some JVal.coll := by
        intro hc
        have herr := (stepEntry_error_iff now data c' (st.get c')).mpr hc
        rw [hs] at herr
        exact absurd herr (by simp)
      simp [fetchLoop, hs, ih, hne]

theorem Store.set_eq_self {st : Store} {c : Component} {e : Entry} (h : st.get c = e) :
    st.set c e = st := by
  rw [← h, Store.set_get]

theorem fetch_ok_store (data : JObj) (now : String) (st : Store) :
    (fetch_status_from_github (FetchOutcome.ok data) now st).store =
      (fetchLoop now data fetch_components st).1 := by
  unfold fetch_status_from_github
  cases h : (fetchLoop now data fetch_components st).2.2 <;> simp [h]

theorem fetch_ok_flag (data : JObj) (now : String) (st : Store) :
    (fetch_status_from_github (FetchOutcome.ok data) now st).ok =
      (fetchLoop now data fetch_components st).2.2 := by
  unfold fetch_status_from_github
  cases h : (fetchLoop now data fetch_components st).2.2 <;> simp [h]

theorem fetchLoop_ok_get {now : String} {data : JObj} {st : Store}
    (h : (fetchLoop now data fetch_components st).2.2 = true) (c : Component) :
    ∃ lg, stepEntry now data c (st.get c) =
      Except.ok (((fetchLoop now data fetch_components st).1).get c, lg) := by
  cases h1 : stepEntry now data Component.admin (st.get Component.admin) with
  | error u =>
    cases u
    simp [fetch_components, fetchLoop, h1] at h
  | ok p1 =>
    obtain ⟨e1, l1⟩ := p1
    cases h2 : stepEntry now data Component.usermode
        ((st.set Component.admin e1).get Component.usermode) with
    | error u =>
      cases u
      simp [fetch_components, fetchLoop, h1, h2] at h
    | ok p2 =>
      obtain ⟨e2, l2⟩ := p2
      cases h3 : stepEntry now data Component.server
          (((st.set Component.admin e1).set Component.usermode e2).get Component.server) with
      | error u =>
        cases u
        simp [fetch_components, fetchLoop, h1, h2, h3] at h
      | ok p3 =>
        obtain ⟨e3, l3⟩ := p3
        have hres : (fetchLoop now data fetch_components st).1 =
            ((st.set Component.admin e1).set Component.usermode e2).set Component.server e3 := by
          simp [fetch_components, fetchLoop, h1, h2, h3]
        rw [hres]
        cases c with
        | admin =>
          refine ⟨l1, ?_⟩
          rw [Store.get_set_ne _ _ (by decide), Store.get_set_ne _ _ (by decide),
            Store.get_set_same]
          exact h1
        | usermode =>
          refine ⟨l2, ?_⟩
          rw [Store.get_set_ne _ _ (by decide), Store.get_set_same]
          rw [Store.get_set_ne st e1 (by decide)] at h2
          exact h2
        | server =>
          refine ⟨l3, ?_⟩
          rw [Store.get_set_same]
          rw [Store.get_set_ne _ _ (by decide), Store.get_set_ne st e1 (by decide)] at h3
          exact h3

theorem fetchLoop_idem {now₁ now₂ : String} {data : JObj} {st : Store} :
    (fetchLoop now₂ data fetch_components ((fetchLoop now₁ data fetch_components st).1)).1 =
      (fetchLoop now₁ data fetch_components st).1 := by
  cases h1 : stepEntry now₁ data Component.admin (st.get Component.admin) with
  | error u =>
    cases u
    have hres1 : (fetchLoop now₁ data fetch_components st).1 = st := by
      simp [fetch_components, fetchLoop, h1]
    have f1 : stepEntry now₂ data Component.admin (st.get Component.admin) =
        Except.error () :=
      (stepEntry_error_iff now₂ data Component.admin (st.get Component.admin)).mpr
        ((stepEntry_error_iff now₁ data Component.admin (st.get Component.admin)).mp h1)
    rw [hres1]
    simp [fetch_components, fetchLoop, f1]
  | ok p1 =>
    obtain ⟨e1, l1⟩ := p1
    cases h2 : stepEntry now₁ data Component.usermode
        ((st.set Component.admin e1).get Component.usermode) with
    | error u =>
      cases u
      have hres1 : (fetchLoop now₁ data fetch_components st).1 =
          st.set Component.admin e1 := by
        simp [fetch_components, fetchLoop, h1, h2]
      have f1 : stepEntry now₂ data Component.admin
          ((st.set Component.admin e1).get Component.admin) = Except.ok (e1, []) := by
        rw [Store.get_set_same]
        exact stepEntry_stable h1 now₂
      have f2 : (st.set Component.admin e1).set Component.admin e1 =
          st.set Component.admin e1 :=
        Store.set_eq_self (Store.get_set_same st Component.admin e1)
      have f3 : stepEntry now₂ data Component.usermode
          ((st.set Component.admin e1).get Component.usermode) = Except.error () :=
        (stepEntry_error_iff _ _ _ _).mpr ((stepEntry_error_iff _ _ _ _).mp h2)
      rw [hres1]
      simp [fetch_components, fetchLoop, f1, f2, f3]
    | ok p2 =>
      obtain ⟨e2, l2⟩ := p2
      cases h3 : stepEntry now₁ data Component.server
          (((st.set Component.admin e1).set Component.usermode e2).get Component.server) with
      | error u =>
        cases u
        have hres1 : (fetchLoop now₁ data fetch_components st).1 =
            (st.set Component.admin e1).set Component.usermode e2 := by
          simp [fetch_components, fetchLoop, h1, h2, h3]
        have hga : ((st.set Component.admin e1).set Component.usermode e2).get
            Component.admin = e1 := by
          rw [Store.get_set_ne _ _ (by decide), Store.get_set_same]
        have f1 : stepEntry now₂ data Component.admin
            (((st.set Component.admin e1).set Component.usermode e2).get Component.admin) =
            Except.ok (e1, []) := by
          rw [hga]
          exact stepEntry_stable h1 now₂
        have f2 : ((st.set Component.admin e1).set Component.usermode e2).set
            Component.admin e1 = (st.set Component.admin e1).set Component.usermode e2 :=
          Store.set_eq_self hga
        have f3 : stepEntry now₂ data Component.usermode
            (((st.set Component.admin e1).set Component.usermode e2).get
              Component.usermode) = Except.ok (e2, []) := by
          rw [Store.get_set_same]
          exact stepEntry_stable h2 now₂
        have f4 : ((st.set Component.admin e1).set Component.usermode e2).set
            Component.usermode e2 = (st.set Component.admin e1).set Component.usermode e2 :=
          Store.set_eq_self (Store.get_set_same _ _ _)
        have f5 : stepEntry now₂ data Component.server
            (((st.set Component.admin e1).set Component.usermode e2).get Component.server) =
            Except.error () :=
          (stepEntry_error_iff _ _ _ _).mpr ((stepEntry_error_iff _ _ _ _).mp h3)
        rw [hres1]
        simp [fetch_components, fetchLoop, f1, f2, f3, f4, f5]
      | ok p3 =>
        obtain ⟨e3, l3⟩ := p3
        have hres1 : (fetchLoop now₁ data fetch_components st).1 =
            ((st.set Component.admin e1).set Component.usermode e2).set
              Component.server e3 := by
          simp [fetch_components, fetchLoop, h1, h2, h3]
        have hga : (((st.set Component.admin e1).set Component.usermode e2).set
            Component.server e3).get Component.admin = e1 := by
          rw [Store.get_set_ne _ _ (by decide), Store.get_set_ne _ _ (by decide),
            Store.get_set_same]
        have hgu : (((st.set Component.admin e1).set Component.usermode e2).set
            Component.server e3).get Component.usermode = e2 := by
          rw [Store.get_set_ne _ _ (by decide), Store.get_set_same]
        have hgs : (((st.set Component.admin e1).set Component.usermode e2).set
            Component.server e3).get Component.server = e3 :=
          Store.get_set_same _ _ _
        have f1 : stepEntry now₂ data Component.admin
            ((((st.set Component.admin e1).set Component.usermode e2).set
              Component.server e3).get Component.admin) = Except.ok (e1, []) := by
          rw [hga]
          exact stepEntry_stable h1 now₂
        have f2 := Store.set_eq_self hga
        have f3 : stepEntry now₂ data Component.usermode
            ((((st.set Component.admin e1).set Component.usermode e2).set
              Component.server e3).get Component.usermode) = Except.ok (e2, []) := by
          rw [hgu]
          exact stepEntry_stable h2 now₂
        have f4 := Store.set_eq_self hgu
        have f5 : stepEntry now₂ data Component.server
            ((((st.set Component.admin e1).set Component.usermode e2).set
              Component.server e3).get Component.server) = Except.ok (e3, []) := by
          rw [hgs]
          exact stepEntry_stable h3 now₂
        have f6 := Store.set_eq_self hgs
        rw [hres1]
        simp [fetch_components, fetchLoop, f1, f2, f3, f4, f5, f6]

theorem stepEntry_inv {now : String} {data : JObj} {c : Component} {e e' : Entry}
    {lg : List FetchLog} (h : stepEntry now data c e = Except.ok (e', lg))
    (he : EntryInv c e) : EntryInv c e' := by
  cases hl : data.lookup c.key with
  | none =>
    simp [stepEntry, hl] at h
    exact h.1 ▸ he
  | some v =>
    cases v with
    | str s =>
      by_cases hm : in_status_options c.key s
      · by_cases hs : e.status ≠ s
        · simp [stepEntry, hl, hm, hs] at h
          refine h.1 ▸ ?_
          exact ⟨hm, rfl⟩
        · simp [stepEntry, hl, hm, hs] at h
          exact h.1 ▸ he
      · simp [stepEntry, hl, hm] at h
        exact h.1 ▸ he
    | prim =>
      simp [stepEntry, hl] at h
      exact h.1 ▸ he
    | coll => simp [stepEntry, hl] at h

theorem fetchLoop_inv {now : String} {data : JObj} :
    ∀ (l : List Component) (st : Store), (∀ c, EntryInv c (st.get c)) →
      ∀ c, EntryInv c (((fetchLoop now data l st).1).get c) := by
  intro l
  induction l with
  | nil => intro st h c; exact h c
  | cons c' rest ih =>
    intro st h c
    cases hs : stepEntry now data c' (st.get c') with
    | error u =>
      cases u
      simp only [fetchLoop, hs]
      exact h c
    | ok p =>
      obtain ⟨e, lg⟩ := p
      simp only [fetchLoop, hs]
      refine ih (st.set c' e) ?_ c
      intro c''
      by_cases hc : c'' = c'
      · subst hc
        rw [Store.get_set_same]
        exact stepEntry_inv hs (h c'')
      · rw [Store.get_set_ne st e hc]
        exact h c''

theorem reachable_inv {st : Store} (h : Reachable st) : ∀ c, EntryInv c (st.get c) := by
  induction h with
  | init =>
    intro c
    cases c <;> exact ⟨by decide, by decide⟩
  | step outcome now hst ih =>
    cases outcome with
    | ok data =>
      rw [fetch_ok_store]
      exact fetchLoop_inv fetch_components _ ih
    | badStatus => exact ih
    | raised => exact ih

theorem lookup_getD_ne {l : List (String × String)} {v d : String}
    (hall : ∀ p ∈ l, p.2 ≠ d) (h : (List.lookup v l).isSome = true) :
    (List.lookup v l).getD d ≠ d := by
  induction l with
  | nil => simp [List.lookup] at h
  | cons p t ih =>
    obtain ⟨k, g⟩ := p
    cases hvk : (v == k) with
    | true =>
      simp [List.lookup, hvk]
      exact hall (k, g) (by simp)
    | false =>
      simp only [List.lookup, hvk] at h ⊢
      exact ih (fun q hq => hall q (List.mem_cons_of_mem _ hq)) h

theorem glyph_ne_white {category v : String} (h : in_status_options category v = true) :
    get_status_color category v ≠ "⚪" := by
  unfold in_status_options at h
  unfold get_status_color
  unfold STATUS_OPTIONS at h ⊢
  split_ifs at h ⊢ <;> exact lookup_getD_ne (by decide) h

theorem lookup_isSome_iff_mem_keys (l : List (String × String)) (v : String) :
    (List.lookup v l).isSome = true ↔ v ∈ l.map Prod.fst := by
  induction l with
  | nil => simp [List.lookup]
  | cons p t ih =>
    obtain ⟨k, g⟩ := p
    cases hvk : (v == k) with
    | true =>
      have hv : v = k := by simpa using hvk
      simp [List.lookup, hvk, hv]
    | false =>
      have hv : ¬ v = k := by simpa using hvk
      simp [List.lookup, hvk, ih, hv]

theorem in_status_options_iff_mem {category v : String} :
    in_status_options category v = true ↔ v ∈ status_option_keys category :=
  lookup_isSome_iff_mem_keys _ v

theorem all_online_iff (st : Store) :
    all_online st = true ↔ ∀ c, (st.get c).status = "Online" := by
  constructor
  · intro h c
    simp [all_online] at h
    cases c
    · exact h.1
    · exact h.2.1
    · exact h.2.2
  · intro h
    simp [all_online]
    exact ⟨h Component.admin, h Component.usermode, h Component.server⟩

theorem any_offline_iff (st : Store) :
    any_offline st = true ↔ ∃ c, (st.get c).status = "Offline" := by
  constructor
  · intro h
    simp [any_offline] at h
    rcases h with h | h | h
    · exact ⟨Component.admin, h⟩
    · exact ⟨Component.usermode, h⟩
    · exact ⟨Component.server, h⟩
  · intro ⟨c, hc⟩
    simp [any_offline]
    cases c
    · exact Or.inl hc
    · exact Or.inr (Or.inl hc)
    · exact Or.inr (Or.inr hc)

/-! Claim-level theorems. -/

/-- C1 counterexample: the claim fails as stated.  In the object
dataCollServer the server key is recognized, its value Online is in the
server allowed set and differs from the stored Offline, yet
fetch_status_from_github leaves the server entry unchanged, because the
admin key is processed first and its array or object value makes the
membership test of line 120 raise TypeError, aborting the loop before the
server key is reached. -/
theorem C1_counterexample :
    dataCollServer.lookup (Component.server).key = some (JVal.str "Online") ∧
    in_status_options (Component.server).key "Online" = true ∧
    (current_status.get Component.server).status ≠ "Online" ∧
    (fetch_status_from_github (FetchOutcome.ok dataCollServer) "2026-10-12 09:00:00"
        current_status).store.get Component.server = current_status.get Component.server := by
  refine ⟨by decide, by decide, by decide, by decide⟩

/-- C1 (amended): provided the call succeeds (returns True, meaning no
iteration of the update loop raised), every recognized component key
present in the object whose string value is in the allowed set of the component
and differs from the stored value has its entry replaced by exactly the new
value, the table glyph for it, and the fresh timestamp; and a key that is
absent, whose value is out of the allowed set, whose value equals the
stored value, or whose value is a non-string primitive leaves the entry
unchanged.  (When an unhashable value makes the loop raise, keys at or
after the raise point are not updated even if valid; see the
counterexample.) -/
theorem C1_per_key_update (data : JObj) (now : String) (st : Store)
    (hok : (fetch_status_from_github (FetchOutcome.ok data) now st).ok = true)
    (c : Component) :
    (∀ v, data.lookup c.key = some (JVal.str v) → in_status_options c.key v = true →
      (st.get c).status ≠ v →
      (fetch_status_from_github (FetchOutcome.ok data) now st).store.get c =
        { status := v, color := get_status_color c.key v, last_update := some now }) ∧
    (data.lookup c.key = none →
      (fetch_status_from_github (FetchOutcome.ok data) now st).store.get c = st.get c) ∧
    (∀ v, data.lookup c.key = some (JVal.str v) → in_status_options c.key v = false →
      (fetch_status_from_github (FetchOutcome.ok data) now st).store.get c = st.get c) ∧
    (∀ v, data.lookup c.key = some (JVal.str v) → (st.get c).status = v →
      (fetch_status_from_github (FetchOutcome.ok data) now st).store.get c = st.get c) ∧
    (data.lookup c.key = some JVal.prim →
      (fetch_status_from_github (FetchOutcome.ok data) now st).store.get c = st.get c) := by
  rw [fetch_ok_flag] at hok
  obtain ⟨lg, hstep⟩ := fetchLoop_ok_get hok c
  rw [fetch_ok_store]
  refine ⟨?_, ?_, ?_, ?_, ?_⟩
  · intro v hl hm hs
    simp [stepEntry, hl, hm, hs] at hstep
    exact hstep.1.symm
  · intro hl
    simp [stepEntry, hl] at hstep
    exact hstep.1.symm
  · intro v hl hm
    simp [stepEntry, hl, hm] at hstep
    exact hstep.1.symm
  · intro v hl hs
    by_cases hm : in_status_options c.key v
    · simp [stepEntry, hl, hm, hs] at hstep
      exact hstep.1.symm
    · simp [stepEntry, hl, hm] at hstep
      exact hstep.1.symm
  · intro hl
    simp [stepEntry, hl] at hstep
    exact hstep.1.symm

/-- C1 witness: on the object that sets admin to Busy, a successful fetch
from the initial store records exactly the new value, the yellow glyph and
the fresh timestamp for admin. -/
theorem C1_per_key_update_witness :
    (fetch_status_from_github (FetchOutcome.ok dataBusyAdmin) "2026-10-12 09:05:00"
        current_status).ok = true ∧
    dataBusyAdmin.lookup (Component.admin).key = some (JVal.str "Busy") ∧
    in_status_options (Component.admin).key "Busy" = true ∧
    (current_status.get Component.admin).status ≠ "Busy" ∧
    (fetch_status_from_github (FetchOutcome.ok dataBusyAdmin) "2026-10-12 09:05:00"
        current_status).store.get Component.admin =
      { status := "Busy", color := get_status_color "admin" "Busy",
        last_update := some "2026-10-12 09:05:00" } :=
  ⟨by decide, by decide, by decide, by decide,
    (C1_per_key_update dataBusyAdmin "2026-10-12 09:05:00" current_status (by decide)
        Component.admin).1 "Busy" (by decide) (by decide) (by decide)⟩

/-- C2: the aggregate health of the renderer.  If the stored
value of every component is Online, the embed carries the All Systems Operational footer and
accent 0x57F287; if the stored value of any component is Offline, the Critical
footer and accent 0xED4245 (one Offline suffices even when the others are
Online, because the all-Online test already failed); otherwise the Degraded
footer and accent 0xFEE75C. -/
theorem C2_aggregate_health (st : Store) (now : String) :
    ((∀ c, (st.get c).status = "Online") →
      (create_status_embed now st).color = 0x57F287 ∧
      (create_status_embed now st).footer =
        "✅ All Systems Operational • Auto-updates every 30s") ∧
    ((∃ c, (st.get c).status = "Offline") →
      (create_status_embed now st).color = 0xED4245 ∧
      (create_status_embed now st).footer =
        "🔴 Critical Issues Detected • Auto-updates every 30s") ∧
    ((¬ ∀ c, (st.get c).status = "Online") → (∀ c, (st.get c).status ≠ "Offline") →
      (create_status_embed now st).color = 0xFEE75C ∧
      (create_status_embed now st).footer =
        "⚠️ Some Systems Degraded • Auto-updates every 30s") := by
  refine ⟨?_, ?_, ?_⟩
  · intro h
    have ha : all_online st = true := (all_online_iff st).mpr h
    exact ⟨by simp [create_status_embed, ha], by simp [create_status_embed, ha]⟩
  · intro h
    have hno : all_online st = false := by
      cases hh : all_online st
      · rfl
      · obtain ⟨c, hc⟩ := h
        have hall := (all_online_iff st).mp hh c
        exact absurd (hall.symm.trans hc) (by decide)
    have ha : any_offline st = true := (any_offline_iff st).mpr h
    exact ⟨by simp [create_status_embed, hno, ha], by simp [create_status_embed, hno, ha]⟩
  · intro hnall hnone
    have hno : all_online st = false := by
      cases hh : all_online st
      · rfl
      · exact absurd ((all_online_iff st).mp hh) hnall
    have hna : any_offline st = false := by
      cases hh : any_offline st
      · rfl
      · obtain ⟨c, hc⟩ := (any_offline_iff st).mp hh
        exact absurd hc (hnone c)
    exact ⟨by simp [create_status_embed, hno, hna], by simp [create_status_embed, hno, hna]⟩

/-- C2 witness: the three example stores of the claim, one per branch. -/
theorem C2_aggregate_health_witness :
    ((∀ c, (storeAllOnline.get c).status = "Online") ∧
      (create_status_embed "t" storeAllOnline).color = 0x57F287) ∧
    ((∃ c, (storeOneOffline.get c).status = "Offline") ∧
      (create_status_embed "t" storeOneOffline).color = 0xED4245) ∧
    ((¬ ∀ c, (storeOneBusy.get c).status = "Online") ∧
      (∀ c, (storeOneBusy.get c).status ≠ "Offline") ∧
      (create_status_embed "t" storeOneBusy).color = 0xFEE75C) :=
  ⟨⟨fun c => by cases c <;> rfl,
    ((C2_aggregate_health storeAllOnline "t").1 (fun c => by cases c <;> rfl)).1⟩,
   ⟨⟨Component.admin, rfl⟩,
    ((C2_aggregate_health storeOneOffline "t").2.1 ⟨Component.admin, rfl⟩).1⟩,
   ⟨fun h => absurd (h Component.admin) (by decide),
    fun c => by cases c <;> decide,
    ((C2_aggregate_health storeOneBusy "t").2.2
      (fun h => absurd (h Component.admin) (by decide))
      (fun c => by cases c <;> decide)).1⟩⟩

/-- C3 counterexample: a call that fails (returns False) and nevertheless
mutates the store.  The body of dataOnlineColl parses as a JSON object, the
loop updates admin to Online, then the unhashable usermode value makes the
membership test of line 120 raise; the except clause returns False, but the
admin update has already been written to the global store. -/
theorem C3_counterexample :
    (fetch_status_from_github (FetchOutcome.ok dataOnlineColl) "2026-10-12 09:00:00"
        current_status).ok = false ∧
    (fetch_status_from_github (FetchOutcome.ok dataOnlineColl) "2026-10-12 09:00:00"
        current_status).store ≠ current_status := by
  exact ⟨by decide, by decide⟩

/-- C3 (amended): on a non-200 HTTP status, and on an exception raised
before the parsed object is processed (network failure, unparseable body),
fetch_status_from_github returns False, logs, and leaves the store exactly
unchanged.  A failure raised in the middle of processing a parsed object
still returns False but keeps the updates already made (see the
counterexample). -/
theorem C3_no_mutation_on_early_failure (now : String) (st : Store) :
    fetch_status_from_github FetchOutcome.badStatus now st =
      { ok := false, store := st, logs := [FetchLog.failedHTTP] } ∧
    fetch_status_from_github FetchOutcome.raised now st =
      { ok := false, store := st, logs := [FetchLog.errorFetching] } :=
  ⟨rfl, rfl⟩

/-- C4: in every reachable store each stored status value is a key of the
STATUS_OPTIONS table of the component, and a fetched string value outside the
allowed set never mutates the entry of the component. -/
theorem C4_store_invariant :
    (∀ st, Reachable st → ∀ c, (st.get c).status ∈ status_option_keys c.key) ∧
    (∀ (data : JObj) (now : String) (st : Store) (c : Component) (v : String),
      data.lookup c.key = some (JVal.str v) → in_status_options c.key v = false →
      (fetch_status_from_github (FetchOutcome.ok data) now st).store.get c = st.get c) := by
  constructor
  · intro st h c
    exact in_status_options_iff_mem.mp (reachable_inv h c).1
  · intro data now st c v hl hm
    rw [fetch_ok_store]
    exact fetchLoop_get_id (fun e => by simp [stepEntry, hl, hm]) fetch_components st

/-- C4 witness: the initial store satisfies the invariant, and the
out-of-set server value Turbo leaves the server entry unchanged. -/
theorem C4_store_invariant_witness :
    Reachable current_status ∧
    (current_status.get Component.admin).status ∈ status_option_keys "admin" ∧
    dataUnknownValue.lookup (Component.server).key = some (JVal.str "Turbo") ∧
    in_status_options (Component.server).key "Turbo" = false ∧
    (fetch_status_from_github (FetchOutcome.ok dataUnknownValue) "2026-10-12 09:00:00"
        current_status).store.get Component.server = current_status.get Component.server :=
  ⟨Reachable.init,
   C4_store_invariant.1 current_status Reachable.init Component.admin,
   by decide, by decide,
   C4_store_invariant.2 dataUnknownValue "2026-10-12 09:00:00" current_status
     Component.server "Turbo" (by decide) (by decide)⟩

/-- C5: fetching the same parsed object twice in a row never changes the
store on the second call, whatever the two clock readings are; in
particular no last_update field is refreshed by the second call. -/
theorem C5_fetch_idempotent (data : JObj) (now₁ now₂ : String) (st : Store) :
    (fetch_status_from_github (FetchOutcome.ok data) now₂
        (fetch_status_from_github (FetchOutcome.ok data) now₁ st).store).store =
      (fetch_status_from_github (FetchOutcome.ok data) now₁ st).store := by
  rw [fetch_ok_store, fetch_ok_store]
  exact fetchLoop_idem

/-- C6 counterexample: the claim fails as stated.  When the channel lookup
of line 139 fails and the configured message id is zero, the function
returns at line 142 after printing only the channel warning: it performs no
platform message call and mutates nothing, but the warning instructing the
operator to configure an identifier is never printed. -/
theorem C6_counterexample :
    envNoChannel.status_message_id = 0 ∧
    (update_status_message envNoChannel "t" current_status).2.1 = [] ∧
    (update_status_message envNoChannel "t" current_status).2.2 =
      [PubLog.channelNotFound] ∧
    PubLog.noMessageId ∉ (update_status_message envNoChannel "t" current_status).2.2 := by
  exact ⟨rfl, rfl, rfl, by decide⟩

/-- C6 (amended): with the target message identifier zero the call performs
no platform message call and mutates no state; when the channel lookup
succeeds it logs exactly the warning instructing the operator to configure
an identifier, and when the channel lookup fails it logs only the channel
warning instead. -/
theorem C6_unconfigured_noop (env : PubEnv) (now : String) (st : Store)
    (hid : env.status_message_id = 0) :
    (update_status_message env now st).1 = env.status_message_id ∧
    (update_status_message env now st).2.1 = [] ∧
    (env.channelFound = true →
      (update_status_message env now st).2.2 = [PubLog.noMessageId]) ∧
    (env.channelFound = false →
      (update_status_message env now st).2.2 = [PubLog.channelNotFound]) := by
  cases hfound : env.channelFound with
  | false => simp [update_status_message, hfound, hid]
  | true => simp [update_status_message, hfound, hid]

/-- C6 witness: with a channel and identifier zero, no platform message
call is made and the configuration warning is printed. -/
theorem C6_unconfigured_noop_witness :
    envUnconfigured.status_message_id = 0 ∧
    (update_status_message envUnconfigured "t" current_status).2.1 = [] ∧
    (update_status_message envUnconfigured "t" current_status).2.2 =
      [PubLog.noMessageId] :=
  ⟨rfl, (C6_unconfigured_noop envUnconfigured "t" current_status rfl).2.1,
   (C6_unconfigured_noop envUnconfigured "t" current_status rfl).2.2.1 rfl⟩

/-- C7: update_status_message never creates a message on any input, and
with a channel, a non-zero identifier and a NotFound outcome from the
message fetch it makes exactly the fetch call and prints exactly the
missing-message warning (no substitute message, so the tick path never
produces duplicates). -/
theorem C7_never_creates :
    (∀ (env : PubEnv) (now : String) (st : Store) (embed : Embed),
      PubAction.createMessage embed ∉ (update_status_message env now st).2.1) ∧
    (∀ (env : PubEnv) (now : String) (st : Store),
      env.channelFound = true → env.status_message_id ≠ 0 →
      env.fetchOutcome = MsgFetch.notFound →
      (update_status_message env now st).2.1 =
        [PubAction.fetchMessage env.status_message_id] ∧
      (update_status_message env now st).2.2 =
        [PubLog.messageNotFound env.status_message_id]) := by
  constructor
  · intro env now st embed
    obtain ⟨cf, mid, fo, er⟩ := env
    cases cf <;> cases fo <;> cases er <;> by_cases hid : mid ≠ 0 <;>
      simp [update_status_message, hid]
  · intro env now st hfound hid hfo
    simp [update_status_message, hfound, hid, hfo]

/-- C7 witness: identifier 42 with a NotFound fetch logs the warning,
performs only the fetch, and creates nothing. -/
theorem C7_never_creates_witness :
    envMissingMessage.channelFound = true ∧
    envMissingMessage.status_message_id ≠ 0 ∧
    envMissingMessage.fetchOutcome = MsgFetch.notFound ∧
    (update_status_message envMissingMessage "t" current_status).2.1 =
      [PubAction.fetchMessage 42] ∧
    (update_status_message envMissingMessage "t" current_status).2.2 =
      [PubLog.messageNotFound 42] ∧
    PubAction.createMessage (create_status_embed "t" current_status) ∉
      (update_status_message envMissingMessage "t" current_status).2.1 :=
  ⟨rfl, by decide, rfl,
   (C7_never_creates.2 envMissingMessage "t" current_status rfl (by decide) rfl).1,
   (C7_never_creates.2 envMissingMessage "t" current_status rfl (by decide) rfl).2,
   C7_never_creates.1 envMissingMessage "t" current_status
     (create_status_embed "t" current_status)⟩

/-- C8: fetch_status_from_github is a total function into a boolean result
(the embedding catches every modelled exception): it returns True exactly
when the HTTP outcome was 200 with a parsed object none of whose three
recognized keys holds an unhashable value (the only processing step that
raises), and whenever it returns False a failure print was made. -/
theorem C8_total_boolean (outcome : FetchOutcome) (now : String) (st : Store) :
    ((fetch_status_from_github outcome now st).ok = true ↔
      ∃ data, outcome = FetchOutcome.ok data ∧
        ∀ c : Component, data.lookup c.key ≠ some JVal.coll) ∧
    ((fetch_status_from_github outcome now st).ok = false →
      FetchLog.failedHTTP ∈ (fetch_status_from_github outcome now st).logs ∨
      FetchLog.errorFetching ∈ (fetch_status_from_github outcome now st).logs) := by
  cases outcome with
  | ok data =>
    constructor
    · rw [fetch_ok_flag, fetchLoop_done_iff fetch_components st]
      constructor
      · intro h
        exact ⟨data, rfl, fun c => h c (by cases c <;> simp [fetch_components])⟩
      · rintro ⟨data', hd, h⟩
        cases hd
        exact fun c _ => h c
    · intro h
      right
      cases hb : (fetchLoop now data fetch_components st).2.2 with
      | false => simp [fetch_status_from_github, hb]
      | true =>
        rw [fetch_ok_flag, hb] at h
        exact absurd h (by simp)
  | badStatus =>
    constructor
    · simp [fetch_status_from_github]
    · intro h
      left
      simp [fetch_status_from_github]
  | raised =>
    constructor
    · simp [fetch_status_from_github]
    · intro h
      right
      simp [fetch_status_from_github]

/-- C8 witness: a non-200 response returns False with the HTTP failure
print. -/
theorem C8_total_boolean_witness :
    (fetch_status_from_github FetchOutcome.badStatus "t" current_status).ok = false ∧
    (FetchLog.failedHTTP ∈
        (fetch_status_from_github FetchOutcome.badStatus "t" current_status).logs ∨
      FetchLog.errorFetching ∈
        (fetch_status_from_github FetchOutcome.badStatus "t" current_status).logs) :=
  ⟨rfl, (C8_total_boolean FetchOutcome.badStatus "t" current_status).2 rfl⟩

/-- C9: the renderer is a pure function of the store snapshot: two
invocations over the same snapshot agree on the title, the description, the
accent color, the three per-component fields and the footer, whatever the
two clock readings are; the only part depending on the clock is the
embedded timestamp, which equals the clock reading. -/
theorem C9_renderer_deterministic (now₁ now₂ : String) (st : Store) :
    (create_status_embed now₁ st).title = (create_status_embed now₂ st).title ∧
    (create_status_embed now₁ st).description =
      (create_status_embed now₂ st).description ∧
    (create_status_embed now₁ st).color = (create_status_embed now₂ st).color ∧
    (create_status_embed now₁ st).fields = (create_status_embed now₂ st).fields ∧
    (create_status_embed now₁ st).footer = (create_status_embed now₂ st).footer ∧
    (create_status_embed now₁ st).timestamp = now₁ :=
  ⟨rfl, rfl, rfl, rfl, rfl, rfl⟩

/-- C10: in every reachable store the stored glyph of each component is exactly
the STATUS_OPTIONS glyph of its stored status (value and glyph are written
together through the same table lookup, and the initial store pairs Offline
with the red glyph), so the white fallback glyph of get_status_color never
appears in the store. -/
theorem C10_glyph_consistency (st : Store) (h : Reachable st) (c : Component) :
    (st.get c).color = get_status_color c.key (st.get c).status ∧
    (st.get c).color ≠ "⚪" := by
  have hi := reachable_inv h c
  exact ⟨hi.2, fun hw => glyph_ne_white hi.1 (hi.2.symm.trans hw)⟩

/-- C10 witness: the initial store is reachable, and its admin entry pairs
Offline with the table glyph, which is not the white fallback. -/
theorem C10_glyph_consistency_witness :
    Reachable current_status ∧
    (current_status.get Component.admin).color =
      get_status_color "admin" (current_status.get Component.admin).status ∧
    (current_status.get Component.admin).color ≠ "⚪" :=
  ⟨Reachable.init,
   (C10_glyph_consistency current_status Reachable.init Component.admin).1,
   (C10_glyph_consistency current_status Reachable.init Component.admin).2⟩
